import Mathlib

/-!
Verification of the searchRetrieve pipeline of the mquery-fcs SRU/FCS gateway.

The definitions below are a shallow embedding of the v12 `searchRetrieve`
handler and of its helpers (`translateQuery`, the dispatch loop, the reply
collection loop, the round-robin merge loop).  Components that live outside
the provided handler source (the resource registry, the range planner, the
round-robin line selector, the diagnostic-code constants and the job-queue
sentinel string) are modelled from the specification document; each such
definition says so in its doc comment.
-/

namespace MqueryFcs

/-- Modelled from the spec: the stable SRU diagnostic codes of the missing
`general` package (spec section 6, "Exit codes into the SRU diagnostics
channel"). -/
inductive DiagCode where
  | DCGeneralSystemError
  | DCUnsupportedParameter
  | DCUnsupportedParameterValue
  | DCMandatoryParameterNotSupplied
  | DCQuerySyntaxError
  | DCQueryCannotProcess
  | DCFirstRecordPosOutOfRange
  deriving DecidableEq, Repr

/-- Modelled from the spec: `general.DiagCode.AsMessage` of the missing
`general` package; a fixed human-readable message per code. -/
def DiagCode.asMessage : DiagCode → String
  | .DCGeneralSystemError => "General system error"
  | .DCUnsupportedParameter => "Unsupported parameter"
  | .DCUnsupportedParameterValue => "Unsupported parameter value"
  | .DCMandatoryParameterNotSupplied => "Mandatory parameter not supplied"
  | .DCQuerySyntaxError => "Query syntax error"
  | .DCQueryCannotProcess => "Cannot process query"
  | .DCFirstRecordPosOutOfRange => "First record position out of range"

/-- `general.FCSError`: a diagnostic surfaced in the SRU response. -/
structure FCSError where
  code : DiagCode
  ident : String
  message : String
  deriving DecidableEq, Repr

/-- Modelled from the spec: HTTP status for a conformant bad request
(spec section 6: "400 (conformant bad request)"); the constant itself lives
in the missing `general` package. -/
def ConformantStatusBadRequest : Int := 400

/-- Modelled from the spec: HTTP status for a conformant unprocessable
entity (spec section 6: "422 (conformant unprocessable)"). -/
def ConformantUnprocessableEntity : Int := 422

/-- Modelled from the spec: HTTP status for a general server error
(spec section 6: "500 (general server error)"); the constant keeps the
source spelling `ConformandGeneralServerError`. -/
def ConformandGeneralServerError : Int := 500

/-- Go `http.StatusInternalServerError`. -/
def statusInternalServerError : Int := 500

/-- Go `http.StatusOK`. -/
def statusOK : Int := 200

/-- Modelled from the spec: the sentinel application-error string
`mango.ErrRowsRangeOutOfConc` (spec section 6: "The sentinel error string
`rows range out of conc` signals out-of-range and MUST be detected
textually"). -/
def rowsRangeOutOfConc : String := "rows range out of conc"

/-- Modelled from the spec: `CorpusResource` of the missing resource
registry (spec section 3): name, backing registry path, positional
attribute names, and resource URI. -/
structure CorpusResource where
  name : String
  registryPath : String
  posAttrs : List String
  uri : String
  deriving DecidableEq, Repr

/-- Modelled from the spec: `ResourceRegistry.get(name)` — lookup of a
corpus resource by name. -/
def getResource (rs : List CorpusResource) (nm : String) : Option CorpusResource :=
  rs.find? (fun r => r.name == nm)

/-- Modelled from the spec: `ResourceRegistry.listAll()` /
`Resources.GetCorpora()` — the names of all registered corpora, in
registry order. -/
def getCorpora (rs : List CorpusResource) : List String :=
  rs.map (fun r => r.name)

/-- Modelled from the spec: `Resources.GetCommonPosAttrNames(names...)` —
the ordered intersection of `posAttrs` names across the given corpora;
fails (`none`) when some name does not resolve. -/
def getCommonPosAttrNames (rs : List CorpusResource) : List String → Option (List String)
  | [] => some []
  | c :: rest => do
    let r ← getResource rs c
    rest.foldlM
      (fun acc c2 => (getResource rs c2).map
        (fun r2 => acc.filter (fun a => r2.posAttrs.contains a)))
      r.posAttrs

/-- Modelled from the spec: `corporaConf.GetRegistryPath(name)` — the
backing registry path of a named corpus. -/
def getRegistryPath (rs : List CorpusResource) (nm : String) : String :=
  ((getResource rs nm).map (fun r => r.registryPath)).getD ""

/-- The result of `AST.Generate()` plus `AST.Errors()` for one translated
query: the emitted CQL string and the accumulated semantic errors. -/
structure AST where
  gen : String
  errs : List String
  deriving DecidableEq, Repr

/-- `rdb.ConcExampleArgs`: the job payload published for one corpus. -/
structure ConcExampleArgs where
  corpusPath : String
  query : String
  attrs : List String
  startLine : Int
  maxItems : Int
  deriving DecidableEq, Repr

/-- One token of a worker result line (`word`, `strong`). -/
structure TextChunk where
  word : String
  strong : Bool
  deriving DecidableEq, Repr

/-- One concordance line of a worker reply. -/
structure ConcLine where
  text : List TextChunk
  deriving DecidableEq, Repr

/-- A decoded worker reply: its result lines and its application error
(`result.Err()`). -/
structure ConcExampleResult where
  lines : List ConcLine
  err : Option String
  deriving DecidableEq, Repr

/-- A raw worker reply as received from the queue: either it fails to
decode (`rdb.DeserializeConcExampleResult` error) or it decodes. -/
inductive RawReply where
  | fail (msg : String)
  | ok (res : ConcExampleResult)
  deriving DecidableEq, Repr

/-- The process environment of one request: the resource registry, the
configured `MaximumRecords` default, the basic-query parser
(`basic.ParseQuery`, abstract: `none` is a parse error), the worker pool
(reply per published job) and the queue publish-failure oracle. -/
structure Env where
  resources : List CorpusResource
  maximumRecordsConf : Int
  parse : String → CorpusResource → Option AST
  worker : ConcExampleArgs → RawReply
  publishErr : ConcExampleArgs → Option String

/-- An HTTP request: its URL query parameters in order. -/
structure Request where
  params : List (String × String)
  deriving DecidableEq, Repr

/-- `url.Values.Get(k)` as an option: the first value bound to key `k`. -/
def lookupParam (req : Request) (k : String) : Option String :=
  (req.params.find? (fun p => p.1 == k)).map (fun p => p.2)

/-- gin `ctx.Query(k)`: first value bound to `k`, or the empty string. -/
def queryParam (req : Request) (k : String) : String :=
  (lookupParam req k).getD ""

/-- gin `ctx.DefaultQuery(k, d)`: first value bound to `k`, or `d` when the
key is absent. -/
def defaultQuery (req : Request) (k : String) (d : String) : String :=
  (lookupParam req k).getD d

/-- `url.Values.Has(k)`: whether key `k` occurs among the parameters. -/
def hasParam (req : Request) (k : String) : Bool :=
  (lookupParam req k).isSome

/-- Modelled from the spec: the known searchRetrieve parameter names
accepted by the missing `SearchRetrArg.Validate` (spec sections 4.6 and 6:
`operation`, `query`, `startRecord`, `maximumRecords`, `x-fcs-context`). -/
def knownParams : List String :=
  ["operation", "query", "startRecord", "maximumRecords", "x-fcs-context"]

/-- Whether a URL parameter key is a known searchRetrieve parameter. -/
def isKnownParam (k : String) : Bool :=
  knownParams.contains k

/-- The unknown-parameter scan of `searchRetrieve` (source lines 69-78):
the first parameter key failing `SearchRetrArg.Validate`. -/
def firstUnknownKey (req : Request) : Option String :=
  (req.params.map (fun p => p.1)).find? (fun k => !isKnownParam k)

/-- Digit run to a natural number (helper for `atoi`). -/
def digitsToNatAux : List Char → Nat → Option Nat
  | [], acc => some acc
  | c :: rest, acc =>
    if c.isDigit then digitsToNatAux rest (acc * 10 + (c.toNat - 48)) else none

/-- A non-empty all-digit character run to a natural number. -/
def digitsToNat (cs : List Char) : Option Nat :=
  match cs with
  | [] => none
  | _ :: _ => digitsToNatAux cs 0

/-- The smallest value of Go's 64-bit `int`, -2 to the 63rd. -/
def int64Min : Int := -9223372036854775808

/-- The largest value of Go's 64-bit `int`, 2 to the 63rd minus one. -/
def int64Max : Int := 9223372036854775807

/-- Go `strconv.Atoi`: an optional sign followed by a non-empty digit run;
a value outside the signed 64-bit integer range fails with ErrRange, which
the caller sees as a non-nil error like any other. -/
def atoi (s : String) : Option Int :=
  let unbounded : Option Int :=
    match s.toList with
    | [] => none
    | c :: rest =>
      if c = '+' then (digitsToNat rest).map (fun n => (n : Int))
      else if c = '-' then (digitsToNat rest).map (fun n => -(n : Int))
      else (digitsToNat (c :: rest)).map (fun n => (n : Int))
  match unbounded with
  | none => none
  | some n => if n < int64Min ∨ int64Max < n then none else some n

/-- The `startRecord` block of `searchRetrieve` (source lines 91-109):
`ctx.DefaultQuery("startRecord", "1")`, parsed with `strconv.Atoi`; a
parse failure or a value below 1 is a `DCUnsupportedParameterValue`. -/
def getStartRecord (req : Request) : Except FCSError Int :=
  match atoi (defaultQuery req "startRecord" "1") with
  | none =>
    .error ⟨.DCUnsupportedParameterValue, "startRecord",
      DiagCode.DCUnsupportedParameterValue.asMessage⟩
  | some n =>
    if n < 1 then
      .error ⟨.DCUnsupportedParameterValue, "startRecord",
        DiagCode.DCUnsupportedParameterValue.asMessage⟩
    else .ok n

/-- The `maximumRecords` block of `searchRetrieve` (source lines 111-130):
the configured default, overridden by a non-empty `maximumRecords`
parameter parsed with `strconv.Atoi`; a parse failure or a value below 1
is a `DCUnsupportedParameterValue`. -/
def getMaximumRecords (env : Env) (req : Request) : Except FCSError Int :=
  let step : Except FCSError Int :=
    if (queryParam req "maximumRecords").length > 0 then
      match atoi (queryParam req "maximumRecords") with
      | none =>
        .error ⟨.DCUnsupportedParameterValue, "maximumRecords",
          DiagCode.DCUnsupportedParameterValue.asMessage⟩
      | some n => .ok n
    else .ok env.maximumRecordsConf
  match step with
  | .error e => .error e
  | .ok n =>
    if n < 1 then
      .error ⟨.DCUnsupportedParameterValue, "maximumRecords",
        DiagCode.DCUnsupportedParameterValue.asMessage⟩
    else .ok n

/-- The corpus selection of `searchRetrieve` (source lines 132-135).  The
condition mirrors the source exactly:
`ctx.Request.URL.Query().Has(ctx.Query("x-fcs-context"))` tests the
presence of a parameter KEY equal to the VALUE of `x-fcs-context`. -/
def selectCorpora (env : Env) (req : Request) : List String :=
  let corpora := getCorpora env.resources
  if hasParam req (queryParam req "x-fcs-context") then
    (queryParam req "x-fcs-context").splitOn ","
  else corpora

/-- The context-resolution scan of `searchRetrieve` (source lines 138-149):
the first selected corpus that does not resolve in the registry. -/
def firstUnknownCorpus (env : Env) (corpora : List String) : Option String :=
  corpora.find? (fun c => (getResource env.resources c).isNone)

/-- A range-plan entry: corpus name, 0-based offset, page size. -/
structure RangeEntry where
  rsc : String
  fromLine : Int
  maxItems : Int
  deriving DecidableEq, Repr

/-- Modelled from the spec: `query.CalculatePartialRanges` (spec
section 4.3: per-corpus entry `(name=C[i], from=S, maxItems=K)`, the same
window for every corpus). -/
def calculatePartialRanges (corpora : List String) (s k : Int) : List RangeEntry :=
  corpora.map (fun c => ⟨c, s, k⟩)

/-- `FCSSubHandlerV12.translateQuery` (source lines 39-65): registry lookup
failure is a `DCGeneralSystemError`; a parse failure of `basic.ParseQuery`
is a `DCQuerySyntaxError` with the query as ident. -/
def translateQuery (env : Env) (corpusName fcsQuery : String) : Except FCSError AST :=
  match getResource env.resources corpusName with
  | none =>
    .error ⟨.DCGeneralSystemError, "resource not found " ++ corpusName,
      DiagCode.DCGeneralSystemError.asMessage⟩
  | some res =>
    match env.parse fcsQuery res with
    | none => .error ⟨.DCQuerySyntaxError, fcsQuery, "Invalid query syntax"⟩
    | some ast => .ok ast

/-- The translate-and-publish loop of `searchRetrieve` (source lines
172-217).  Returns the jobs published so far together with an optional
abort `(status, error)`: a translation error aborts with 422 (any
`fcsErr`), non-empty `ast.Errors()` aborts with 422 and
`DCQueryCannotProcess`, a publish failure aborts with 500.  An aborted
call publishes no job for the aborting corpus nor for any later one. -/
def dispatchJobs (env : Env) (fcsQuery : String) (attrs : List String) (k : Int) :
    List RangeEntry → List ConcExampleArgs →
    List ConcExampleArgs × Option (Int × FCSError)
  | [], acc => (acc, none)
  | rng :: rest, acc =>
    match translateQuery env rng.rsc fcsQuery with
    | .error e => (acc, some (ConformantUnprocessableEntity, e))
    | .ok ast =>
      if ast.errs.length > 0 then
        (acc, some (ConformantUnprocessableEntity,
          ⟨.DCQueryCannotProcess, "query", ast.errs.headD ""⟩))
      else
        let args : ConcExampleArgs :=
          ⟨getRegistryPath env.resources rng.rsc, ast.gen, attrs, rng.fromLine, k⟩
        match env.publishErr args with
        | some m =>
          (acc, some (statusInternalServerError,
            ⟨.DCGeneralSystemError, m, "General system error"⟩))
        | none => dispatchJobs env fcsQuery attrs k rest (acc ++ [args])

/-- Modelled from the spec: one per-corpus slot of the missing
`result.RoundRobinLineSel` (spec sections 3 and 4.5): the row list, the
row cursor and the error slot. -/
structure RscSlot where
  rows : List ConcLine
  cur : Nat
  err : Option String
  deriving DecidableEq, Repr

/-- The default slot used by out-of-bounds reads. -/
def dfltSlot : RscSlot := ⟨[], 0, none⟩

/-- The default line used by out-of-bounds reads. -/
def dfltLine : ConcLine := ⟨[]⟩

/-- Modelled from the spec: the missing `result.RoundRobinLineSel`
(spec section 4.5): the page size, the ordered corpora, one slot per
corpus and the global cursor `g`. -/
structure RoundRobinLineSel where
  maxItems : Int
  corpora : List String
  slots : List RscSlot
  g : Nat
  deriving DecidableEq, Repr

/-- Modelled from the spec: `result.NewRoundRobinLineSel(K, corpora...)` —
fresh empty slots, cursor 0. -/
def newRoundRobinLineSel (k : Int) (corpora : List String) : RoundRobinLineSel :=
  ⟨k, corpora, corpora.map (fun _ => dfltSlot), 0⟩

/-- Modelled from the spec: `RscSetErrorAt(i, err)` — store the error in
the slot at index `i`. -/
def RoundRobinLineSel.setErrorAt (sel : RoundRobinLineSel) (i : Nat) (e : String) :
    RoundRobinLineSel :=
  { sel with slots := sel.slots.set i { sel.slots.getD i dfltSlot with err := some e } }

/-- Modelled from the spec: `SetRscLines(name, result)` — store the reply
rows in the slot of the named corpus. -/
def RoundRobinLineSel.setRscLines (sel : RoundRobinLineSel) (nm : String)
    (res : ConcExampleResult) : RoundRobinLineSel :=
  match sel.corpora.findIdx? (fun c => c == nm) with
  | none => sel
  | some j =>
    { sel with slots := sel.slots.set j { sel.slots.getD j dfltSlot with rows := res.lines } }

/-- Whether a slot is quarantined out-of-range: its error equals the
sentinel string, detected textually (spec sections 4.5 and 6). -/
def slotOutOfRange (s : RscSlot) : Bool :=
  s.err == some rowsRangeOutOfConc

/-- Whether a slot holds a fatal (non-out-of-range) error. -/
def slotFatal (s : RscSlot) : Bool :=
  match s.err with
  | some e => e != rowsRangeOutOfConc
  | none => false

/-- Modelled from the spec: `AllHasOutOfRangeError()` — every slot is
out-of-range. -/
def RoundRobinLineSel.allHasOutOfRangeError (sel : RoundRobinLineSel) : Bool :=
  sel.slots.all slotOutOfRange

/-- Modelled from the spec: `HasFatalError()` — some slot is fatal. -/
def RoundRobinLineSel.hasFatalError (sel : RoundRobinLineSel) : Bool :=
  sel.slots.any slotFatal

/-- Modelled from the spec: `GetFirstError()` — the lowest-index stored
error. -/
def RoundRobinLineSel.getFirstError (sel : RoundRobinLineSel) : Option String :=
  (sel.slots.find? (fun s => s.err.isSome)).bind (fun s => s.err)

/-- Modelled from the spec: the scan inside `Next()` (spec section 4.5) —
starting at `g`, step forward mod the slot count for at most `k` tries,
looking for a slot whose cursor is within its row list. -/
def findAvail (slots : List RscSlot) (g : Nat) : Nat → Option Nat
  | 0 => none
  | k + 1 =>
    let j := g % slots.length
    if (slots.getD j dfltSlot).cur < (slots.getD j dfltSlot).rows.length then some j
    else findAvail slots (g + 1) k

/-- Modelled from the spec: `Next()` plus `CurrRscName()` and `CurrLine()`
(spec section 4.5): find the next available slot in a full round-robin
pass, advance its cursor and the global cursor, and return the new state
with the current corpus name and line; `none` when `Next()` is false. -/
def rrNext (sel : RoundRobinLineSel) : Option (RoundRobinLineSel × String × ConcLine) :=
  match findAvail sel.slots sel.g sel.slots.length with
  | none => none
  | some j =>
    let slot := sel.slots.getD j dfltSlot
    let line := slot.rows.getD slot.cur dfltLine
    some
      ({ sel with
          g := (j + 1) % sel.slots.length,
          slots := sel.slots.set j { slot with cur := slot.cur + 1 } },
        sel.corpora.getD j "", line)

/-- The reply-collection loop of `searchRetrieve` (source lines 222-247),
awaiting replies in index order: a decode failure aborts with 500 and
`DCGeneralSystemError`; an application error equal to the sentinel marks
the slot and continues; any other application error aborts with 500 and
`DCQueryCannotProcess`; the reply rows are stored in either surviving
case. -/
def collectLoop (sel : RoundRobinLineSel) (corpora : List String) (i : Nat) :
    List RawReply → Except (Int × FCSError) RoundRobinLineSel
  | [] => .ok sel
  | .fail m :: _ =>
    .error (statusInternalServerError,
      ⟨.DCGeneralSystemError, m, DiagCode.DCGeneralSystemError.asMessage⟩)
  | .ok res :: rest =>
    match res.err with
    | some e =>
      if e = rowsRangeOutOfConc then
        collectLoop ((sel.setErrorAt i e).setRscLines (corpora.getD i "") res)
          corpora (i + 1) rest
      else
        .error (statusInternalServerError,
          ⟨.DCQueryCannotProcess, e, DiagCode.DCQueryCannotProcess.asMessage⟩)
    | none =>
      collectLoop (sel.setRscLines (corpora.getD i "") res) corpora (i + 1) rest

/-- The post-aggregation classification of `searchRetrieve` (source lines
248-263): all-out-of-range responds 422 with `DCFirstRecordPosOutOfRange`;
otherwise a fatal slot responds with the general server error and
`DCQueryCannotProcess`; otherwise processing proceeds to the merge. -/
def classifyAggregate (sel : RoundRobinLineSel) : Option (Int × FCSError) :=
  if sel.allHasOutOfRangeError then
    some (ConformantUnprocessableEntity,
      ⟨.DCFirstRecordPosOutOfRange, sel.getFirstError.getD "",
        DiagCode.DCFirstRecordPosOutOfRange.asMessage⟩)
  else if sel.hasFatalError then
    some (ConformandGeneralServerError,
      ⟨.DCQueryCannotProcess, sel.getFirstError.getD "",
        DiagCode.DCQueryCannotProcess.asMessage⟩)
  else none

/-- One token of an emitted result row. -/
structure Token where
  text : String
  hit : Bool
  deriving DecidableEq, Repr

/-- `FCSSearchRow`: one emitted result row. -/
structure FCSSearchRow where
  position : Nat
  pid : String
  ref : String
  tokens : List Token
  deriving DecidableEq, Repr

/-- The merge loop of `searchRetrieve` (source lines 266-295), fuel form:
the fuel is the number of rows still allowed on the page, so the loop
runs while the accumulated output is shorter than the page size and
`Next()` succeeds.  Each drawn line becomes a row whose position is the
1-based emission index, whose pid is the current corpus and whose ref is
that resource's URI; a registry miss aborts with 500. -/
def mergeLoopAux (env : Env) :
    RoundRobinLineSel → List FCSSearchRow → Nat →
    List FCSSearchRow × Option (Int × FCSError)
  | _, acc, 0 => (acc, none)
  | sel, acc, r + 1 =>
    match rrNext sel with
    | none => (acc, none)
    | some (sel2, nm, line) =>
      match getResource env.resources nm with
      | none =>
        (acc, some (statusInternalServerError,
          ⟨.DCGeneralSystemError, "resource not found " ++ nm,
            DiagCode.DCGeneralSystemError.asMessage⟩))
      | some res =>
        let row : FCSSearchRow :=
          ⟨acc.length + 1, nm, res.uri, line.text.map (fun t => ⟨t.word, t.strong⟩)⟩
        mergeLoopAux env sel2 (acc ++ [row]) r

/-- The merge loop started on an empty page of size `k`. -/
def mergeLoop (env : Env) (sel : RoundRobinLineSel) (k : Int) :
    List FCSSearchRow × Option (Int × FCSError) :=
  mergeLoopAux env sel [] k.toNat

/-- The observable outcome of one `searchRetrieve` call: the returned HTTP
status, the diagnostics added to the response, the echoed request fields,
the emitted rows and the trace of published jobs. -/
structure Outcome where
  status : Int
  errors : List FCSError
  echoedQuery : Option String := none
  echoedStartRecord : Option Int := none
  results : List FCSSearchRow := []
  published : List ConcExampleArgs := []
  deriving DecidableEq, Repr

/-- The merge phase: run the merge loop and wrap its result (200 on a
clean drain; the abort status with the rows accumulated so far
otherwise). -/
def mergePhase (env : Env) (sel : RoundRobinLineSel) (k : Int) : Outcome :=
  match mergeLoop env sel k with
  | (rows, none) => { status := statusOK, errors := [], results := rows }
  | (rows, some (st, e)) => { status := st, errors := [e], results := rows }

/-- The continuation after all replies are collected: classify the
aggregate, aborting with no records, or proceed to the merge phase. -/
def afterCollect (env : Env) (sel : RoundRobinLineSel) (k : Int) : Outcome :=
  match classifyAggregate sel with
  | some (st, e) => { status := st, errors := [e], results := [] }
  | none => mergePhase env sel k

/-- `FCSSubHandlerV12.searchRetrieve` (source lines 67-297), assembled
from the phase definitions above in source order: unknown-parameter scan,
mandatory `query`, `startRecord`, `maximumRecords`, corpus selection and
resolution, common attributes, range planning, dispatch, collection,
classification, merge. -/
def searchRetrieve (env : Env) (req : Request) : Outcome :=
  match firstUnknownKey req with
  | some k =>
    { status := ConformantStatusBadRequest,
      errors := [⟨.DCUnsupportedParameter, k, "unsupported parameter"⟩] }
  | none =>
    let fcsQuery := queryParam req "query"
    if fcsQuery.length = 0 then
      { status := ConformantStatusBadRequest,
        errors := [⟨.DCMandatoryParameterNotSupplied, "fcs_query",
          "Mandatory parameter not supplied"⟩] }
    else
      match getStartRecord req with
      | .error e =>
        { status := ConformantUnprocessableEntity, errors := [e],
          echoedQuery := some fcsQuery }
      | .ok startRecord =>
        match getMaximumRecords env req with
        | .error e =>
          { status := ConformantUnprocessableEntity, errors := [e],
            echoedQuery := some fcsQuery, echoedStartRecord := some startRecord }
        | .ok maximumRecords =>
          let corpora := selectCorpora env req
          if 0 < corpora.length then
            match firstUnknownCorpus env corpora with
            | some v =>
              { status := ConformantStatusBadRequest,
                errors := [⟨.DCUnsupportedParameterValue, "x-fcs-context",
                  "Unknown context " ++ v⟩],
                echoedQuery := some fcsQuery, echoedStartRecord := some startRecord }
            | none =>
              match getCommonPosAttrNames env.resources corpora with
              | none =>
                { status := statusInternalServerError,
                  errors := [⟨.DCGeneralSystemError, "common attrs error",
                    DiagCode.DCGeneralSystemError.asMessage⟩],
                  echoedQuery := some fcsQuery, echoedStartRecord := some startRecord }
              | some retrieveAttrs =>
                let ranges := calculatePartialRanges corpora (startRecord - 1) maximumRecords
                match dispatchJobs env fcsQuery retrieveAttrs maximumRecords ranges [] with
                | (jobs, some (st, e)) =>
                  { status := st, errors := [e],
                    echoedQuery := some fcsQuery, echoedStartRecord := some startRecord,
                    published := jobs }
                | (jobs, none) =>
                  let sel := newRoundRobinLineSel maximumRecords corpora
                  let replies := jobs.map env.worker
                  match collectLoop sel corpora 0 replies with
                  | .error (st, e) =>
                    { status := st, errors := [e],
                      echoedQuery := some fcsQuery, echoedStartRecord := some startRecord,
                      published := jobs }
                  | .ok sel2 =>
                    { afterCollect env sel2 maximumRecords with
                      echoedQuery := some fcsQuery, echoedStartRecord := some startRecord,
                      published := jobs }
          else
            { status := ConformantStatusBadRequest,
              errors := [⟨.DCUnsupportedParameterValue, "x-fcs-context", "Empty context"⟩],
              echoedQuery := some fcsQuery, echoedStartRecord := some startRecord }

/-- No slot of the selector holds a fatal (non-out-of-range) error. -/
def noFatal (sel : RoundRobinLineSel) : Prop :=
  ∀ s ∈ sel.slots, slotFatal s = false

/-! Concrete environments and requests used to instantiate the theorems. -/

/-- A two-corpus registry. -/
def wResources : List CorpusResource :=
  [⟨"c1", "/reg/c1", ["word"], "uri1"⟩, ⟨"c2", "/reg/c2", ["word"], "uri2"⟩]

/-- A parser oracle that accepts every query with no semantic errors. -/
def wParse : String → CorpusResource → Option AST :=
  fun q _ => some ⟨"[word=" ++ q ++ "]", []⟩

/-- A worker oracle returning one line per job. -/
def wWorker : ConcExampleArgs → RawReply :=
  fun a => .ok ⟨[⟨[⟨a.corpusPath, true⟩]⟩], none⟩

/-- A benign environment: every query parses, every publish succeeds. -/
def wEnv : Env := ⟨wResources, 10, wParse, wWorker, fun _ => none⟩

/-- An environment whose parser rejects every query. -/
def wEnvNoParse : Env := ⟨wResources, 10, fun _ _ => none, wWorker, fun _ => none⟩

/-- An environment whose parser accumulates a semantic error on every
query. -/
def wEnvSemErr : Env :=
  ⟨wResources, 10, fun _ _ => some ⟨"", ["unknown attribute foo"]⟩, wWorker, fun _ => none⟩

/-- A well-formed request that supplies an x-fcs-context naming the
registered corpus c2. -/
def ctxReq : Request := ⟨[("query", "cat"), ("x-fcs-context", "c2")]⟩

/-! Helper lemmas about list access. -/

/-- `getD` within bounds is `get`. -/
theorem getD_of_lt {α : Type} (l : List α) (n : Nat) (d : α) (h : n < l.length) :
    l.getD n d = l.get ⟨n, h⟩ := by
  simp [List.getD_eq_getElem?_getD, List.getElem?_eq_getElem h, List.get_eq_getElem]

/-- `getD` out of bounds is the default. -/
theorem getD_of_le {α : Type} (l : List α) (n : Nat) (d : α) (h : l.length ≤ n) :
    l.getD n d = d := by
  simp [List.getD_eq_getElem?_getD, List.getElem?_eq_none h]

/-- `getD` after `set` at the same in-bounds index yields the new
element. -/
theorem getD_set_self {α : Type} (l : List α) (n : Nat) (a d : α) (h : n < l.length) :
    (l.set n a).getD n d = a := by
  simp [List.getD_eq_getElem?_getD, List.getElem?_set_eq_of_lt _ h]

/-! Theorems settling the claims. -/

/-- C3: the code violates the claim.  With registry [c1, c2] and request
`query=cat, x-fcs-context=c2`, the supplied context is ignored — the
source condition tests `Has` of the context's VALUE instead of the
`x-fcs-context` key — so the selected corpora are all registered corpora
rather than exactly [c2], and the request publishes jobs against both
corpora. -/
theorem selectCorpora_ignores_supplied_context :
    selectCorpora wEnv ctxReq = ["c1", "c2"] ∧
    selectCorpora wEnv ctxReq ≠ ["c2"] ∧
    (searchRetrieve wEnv ctxReq).published.map (fun j => j.corpusPath) =
      ["/reg/c1", "/reg/c2"] :=
  ⟨rfl, by decide, rfl⟩

/-- C8: an unknown URL parameter key makes searchRetrieve return HTTP 400
with `DCUnsupportedParameter` naming that key, before any other
validation: the conclusion needs no assumption about the query or the
remaining parameters, and the reported key is an unknown key of the
request. -/
theorem searchRetrieve_unknown_param_first (env : Env) (req : Request) (k : String)
    (h : firstUnknownKey req = some k) :
    searchRetrieve env req =
      { status := ConformantStatusBadRequest,
        errors := [⟨.DCUnsupportedParameter, k, "unsupported parameter"⟩] } ∧
    isKnownParam k = false ∧ k ∈ req.params.map Prod.fst := by
  refine ⟨by simp [searchRetrieve, h], ?_, List.mem_of_find?_eq_some h⟩
  have h2 := List.find?_some h
  simpa using h2

/-- Witness for C8 at a concrete request carrying the unknown key
`bogus`. -/
theorem searchRetrieve_unknown_param_first_witness :
    searchRetrieve wEnv ⟨[("bogus", "1"), ("query", "cat")]⟩ =
      { status := ConformantStatusBadRequest,
        errors := [⟨.DCUnsupportedParameter, "bogus", "unsupported parameter"⟩] } ∧
    isKnownParam "bogus" = false ∧
    "bogus" ∈ ([("bogus", "1"), ("query", "cat")] : List (String × String)).map Prod.fst :=
  searchRetrieve_unknown_param_first wEnv ⟨[("bogus", "1"), ("query", "cat")]⟩ "bogus"
    (by decide)

/-- C10: when every selected corpus resolved in the registry — as the
context-validation scan guarantees on the dispatch path — translateQuery's
registry-failure branch is unreachable for the range entries, so every
error it returns there carries `DCQuerySyntaxError`. -/
theorem translateQuery_only_syntax_errors (env : Env) (q : String) (s k : Int)
    (corpora : List String)
    (hres : ∀ c ∈ corpora, (getResource env.resources c).isSome = true) :
    ∀ rng ∈ calculatePartialRanges corpora s k, ∀ e,
      translateQuery env rng.rsc q = .error e → e.code = .DCQuerySyntaxError := by
  intro rng hrng e he
  rw [calculatePartialRanges, List.mem_map] at hrng
  obtain ⟨c, hc, rfl⟩ := hrng
  have h2 := hres c hc
  simp only [translateQuery] at he
  split at he
  · rename_i hr
    rw [hr] at h2
    simp at h2
  · split at he
    · simp only [Except.error.injEq] at he
      rw [← he]
    · simp at he

/-- Witness for C10: a one-corpus registry whose parser rejects the query
returns an error whose code is the syntax diagnostic. -/
theorem translateQuery_only_syntax_errors_witness :
    (⟨.DCQuerySyntaxError, "cat", "Invalid query syntax"⟩ : FCSError).code =
      .DCQuerySyntaxError :=
  translateQuery_only_syntax_errors wEnvNoParse "cat" 0 10 ["c1"] (by decide)
    ⟨"c1", 0, 10⟩ (by decide)
    ⟨.DCQuerySyntaxError, "cat", "Invalid query syntax"⟩ rfl

/-- The dispatch loop propagates a uniform job window: when every range
entry carries offset `s` and every accumulated job already has the window
`(s, k)`, every job in the final trace has it, and a completed dispatch
appends one job per range entry. -/
theorem dispatchJobs_window_aux (env : Env) (q : String) (attrs : List String)
    (k s : Int) :
    ∀ (ranges : List RangeEntry) (acc jobs : List ConcExampleArgs)
      (ab : Option (Int × FCSError)),
    dispatchJobs env q attrs k ranges acc = (jobs, ab) →
    (∀ rng ∈ ranges, rng.fromLine = s) →
    (∀ j ∈ acc, j.startLine = s ∧ j.maxItems = k) →
    (∀ j ∈ jobs, j.startLine = s ∧ j.maxItems = k) ∧
      (ab = none → jobs.length = acc.length + ranges.length) := by
  intro ranges
  induction ranges with
  | nil =>
    intro acc jobs ab h _ hacc
    simp only [dispatchJobs] at h
    injection h with h1 h2
    subst h1
    subst h2
    exact ⟨hacc, fun _ => by simp⟩
  | cons rng rest ih =>
    intro acc jobs ab h hrng hacc
    simp only [dispatchJobs] at h
    split at h
    · injection h with h1 h2
      subst h1
      subst h2
      exact ⟨hacc, fun hn => by simp at hn⟩
    · rename_i ast ht
      split at h
      · injection h with h1 h2
        subst h1
        subst h2
        exact ⟨hacc, fun hn => by simp at hn⟩
      · split at h
        · injection h with h1 h2
          subst h1
          subst h2
          exact ⟨hacc, fun hn => by simp at hn⟩
        · have hargs : rng.fromLine = s := hrng rng (by simp)
          have hacc2 : ∀ j ∈ acc ++
              [(⟨getRegistryPath env.resources rng.rsc, ast.gen, attrs, rng.fromLine, k⟩ :
                ConcExampleArgs)],
              j.startLine = s ∧ j.maxItems = k := by
            intro j hj
            rcases List.mem_append.mp hj with hj1 | hj2
            · exact hacc j hj1
            · simp at hj2
              subst hj2
              exact ⟨hargs, rfl⟩
          have := ih (acc ++ [⟨getRegistryPath env.resources rng.rsc, ast.gen, attrs,
            rng.fromLine, k⟩]) jobs ab h (fun r hr => hrng r (by simp [hr])) hacc2
          refine ⟨this.1, fun hn => ?_⟩
          have hl := this.2 hn
          simp at hl
          simp [hl]
          omega

/-- C5: every job published for the request carries the same window —
zero-based `startLine = startRecord - 1` and `maxItems = K` — and a
completed dispatch publishes exactly one such job per selected corpus. -/
theorem dispatchJobs_uniform_window (env : Env) (q : String) (attrs : List String)
    (corpora : List String) (startRecord k : Int)
    (jobs : List ConcExampleArgs) (ab : Option (Int × FCSError))
    (h : dispatchJobs env q attrs k
      (calculatePartialRanges corpora (startRecord - 1) k) [] = (jobs, ab)) :
    (∀ j ∈ jobs, j.startLine = startRecord - 1 ∧ j.maxItems = k) ∧
    (ab = none → jobs.length = corpora.length) := by
  have hr : ∀ rng ∈ calculatePartialRanges corpora (startRecord - 1) k,
      rng.fromLine = startRecord - 1 := by
    intro rng hrng
    rw [calculatePartialRanges, List.mem_map] at hrng
    obtain ⟨c, _, rfl⟩ := hrng
    rfl
  have := dispatchJobs_window_aux env q attrs k (startRecord - 1)
    (calculatePartialRanges corpora (startRecord - 1) k) [] jobs ab h hr (by simp)
  refine ⟨this.1, fun hn => ?_⟩
  have hl := this.2 hn
  simpa [calculatePartialRanges] using hl

/-- Witness for C5: one corpus, startRecord 1, page size 10. -/
theorem dispatchJobs_uniform_window_witness :
    (∀ j ∈ [(⟨"/reg/c1", "[word=cat]", ["word"], 0, 10⟩ : ConcExampleArgs)],
      j.startLine = (1 : Int) - 1 ∧ j.maxItems = 10) ∧
    ((none : Option (Int × FCSError)) = none →
      ([(⟨"/reg/c1", "[word=cat]", ["word"], 0, 10⟩ : ConcExampleArgs)]).length =
        (["c1"] : List String).length) :=
  dispatchJobs_uniform_window wEnv "cat" ["word"] ["c1"] 1 10
    [⟨"/reg/c1", "[word=cat]", ["word"], 0, 10⟩] none (by decide)

/-- C6: during per-corpus query translation, a parse error aborts the
whole request with HTTP 422 — `translateQuery` surfaces it as
`DCQuerySyntaxError` — and a generated AST with a non-empty `Errors()`
list aborts with HTTP 422 and `DCQueryCannotProcess`; in both cases the
published-job trace stays at the jobs of the earlier corpora (nothing is
published for the aborting corpus or any later one), and a dispatch abort
is exactly the status, error and trace that `searchRetrieve` returns, with
no records. -/
theorem dispatchJobs_translate_abort (env : Env) (req : Request) (q : String)
    (attrs : List String) (k sr st : Int) (rng : RangeEntry) (rest : List RangeEntry)
    (acc jobs : List ConcExampleArgs) (corpora : List String) (res : CorpusResource)
    (ast : AST) (e : FCSError) :
    (getResource env.resources rng.rsc = some res → env.parse q res = none →
      dispatchJobs env q attrs k (rng :: rest) acc =
        (acc, some (ConformantUnprocessableEntity,
          ⟨.DCQuerySyntaxError, q, "Invalid query syntax"⟩))) ∧
    (getResource env.resources rng.rsc = some res → env.parse q res = some ast →
      ast.errs ≠ [] →
      dispatchJobs env q attrs k (rng :: rest) acc =
        (acc, some (ConformantUnprocessableEntity,
          ⟨.DCQueryCannotProcess, "query", ast.errs.headD ""⟩))) ∧
    (firstUnknownKey req = none → queryParam req "query" = q → q.length ≠ 0 →
      getStartRecord req = .ok sr → getMaximumRecords env req = .ok k →
      selectCorpora env req = corpora → 0 < corpora.length →
      firstUnknownCorpus env corpora = none →
      getCommonPosAttrNames env.resources corpora = some attrs →
      dispatchJobs env q attrs k (calculatePartialRanges corpora (sr - 1) k) [] =
        (jobs, some (st, e)) →
      searchRetrieve env req =
        { status := st, errors := [e], echoedQuery := some q,
          echoedStartRecord := some sr, results := [], published := jobs }) := by
  refine ⟨?_, ?_, ?_⟩
  · intro hr hp
    have ht : translateQuery env rng.rsc q =
        .error ⟨.DCQuerySyntaxError, q, "Invalid query syntax"⟩ := by
      simp [translateQuery, hr, hp]
    simp [dispatchJobs, ht]
  · intro hr hp hne
    have ht : translateQuery env rng.rsc q = .ok ast := by
      simp [translateQuery, hr, hp]
    have hlen : ast.errs.length > 0 := List.length_pos.mpr hne
    simp [dispatchJobs, ht, hlen]
  · intro hk hqv hq0 hsr hmr hsel hpos hfc hattrs hd
    simp [searchRetrieve, hk, hqv, hq0, hsr, hmr, hsel, hpos, hfc, hattrs, hd]

/-- Witness for C6: a one-corpus dispatch whose parser rejects the query
publishes nothing and aborts 422 with the syntax diagnostic. -/
theorem dispatchJobs_translate_abort_witness :
    dispatchJobs wEnvNoParse "cat" ["word"] 10 [⟨"c1", 0, 10⟩] [] =
      ([], some (ConformantUnprocessableEntity,
        ⟨.DCQuerySyntaxError, "cat", "Invalid query syntax"⟩)) :=
  (dispatchJobs_translate_abort wEnvNoParse ⟨[]⟩ "cat" ["word"] 10 1 422
    ⟨"c1", 0, 10⟩ [] [] [] ["c1"] ⟨"c1", "/reg/c1", ["word"], "uri1"⟩
    ⟨"", []⟩ ⟨.DCQuerySyntaxError, "cat", "Invalid query syntax"⟩).1
    (by decide) rfl

/-- C1: one collection step per reply — a decode failure aborts with 500
and `DCGeneralSystemError`; an application error textually equal to the
sentinel `rows range out of conc` marks the slot out-of-range and the loop
continues with the remaining replies; any other application error aborts
with 500 and `DCQueryCannotProcess`. -/
theorem collectLoop_reply_classification (sel : RoundRobinLineSel)
    (corpora : List String) (i : Nat) (rest : List RawReply)
    (res : ConcExampleResult) (m e : String) :
    (collectLoop sel corpora i (.fail m :: rest) =
      .error (statusInternalServerError,
        ⟨.DCGeneralSystemError, m, DiagCode.DCGeneralSystemError.asMessage⟩)) ∧
    (res.err = some rowsRangeOutOfConc →
      collectLoop sel corpora i (.ok res :: rest) =
        collectLoop ((sel.setErrorAt i rowsRangeOutOfConc).setRscLines
          (corpora.getD i "") res) corpora (i + 1) rest ∧
      (i < sel.slots.length →
        slotOutOfRange
          ((sel.setErrorAt i rowsRangeOutOfConc).slots.getD i dfltSlot) = true)) ∧
    (res.err = some e → e ≠ rowsRangeOutOfConc →
      collectLoop sel corpora i (.ok res :: rest) =
        .error (statusInternalServerError,
          ⟨.DCQueryCannotProcess, e, DiagCode.DCQueryCannotProcess.asMessage⟩)) := by
  refine ⟨rfl, fun h => ⟨?_, fun hi => ?_⟩, fun h hne => ?_⟩
  · simp [collectLoop, h]
  · show slotOutOfRange ((sel.slots.set i
        { sel.slots.getD i dfltSlot with err := some rowsRangeOutOfConc }).getD i
        dfltSlot) = true
    rw [getD_set_self _ _ _ _ hi]
    rfl
  · simp [collectLoop, h, hne]

/-- Witness for C1: a sentinel reply continues collection; an undecodable
reply aborts with the general system error. -/
theorem collectLoop_reply_classification_witness :
    collectLoop (newRoundRobinLineSel 10 ["c1"]) ["c1"] 0
        [.ok ⟨[], some rowsRangeOutOfConc⟩] =
      collectLoop (((newRoundRobinLineSel 10 ["c1"]).setErrorAt 0
        rowsRangeOutOfConc).setRscLines ((["c1"] : List String).getD 0 "")
        ⟨[], some rowsRangeOutOfConc⟩) ["c1"] 1 [] ∧
    collectLoop (newRoundRobinLineSel 10 ["c1"]) ["c1"] 0 [.fail "boom"] =
      .error (statusInternalServerError,
        ⟨.DCGeneralSystemError, "boom", DiagCode.DCGeneralSystemError.asMessage⟩) :=
  ⟨((collectLoop_reply_classification (newRoundRobinLineSel 10 ["c1"]) ["c1"] 0 []
      ⟨[], some rowsRangeOutOfConc⟩ "" "").2.1 rfl).1,
    (collectLoop_reply_classification (newRoundRobinLineSel 10 ["c1"]) ["c1"] 0 []
      ⟨[], some rowsRangeOutOfConc⟩ "boom" "").1⟩

/-- Storing reply rows never changes any slot's error, so it preserves the
no-fatal invariant. -/
theorem noFatal_setRscLines (sel : RoundRobinLineSel) (nm : String)
    (res : ConcExampleResult) (h : noFatal sel) : noFatal (sel.setRscLines nm res) := by
  intro s hs
  unfold RoundRobinLineSel.setRscLines at hs
  split at hs
  · exact h s hs
  · rename_i j hj
    rcases List.mem_or_eq_of_mem_set hs with h1 | h2
    · exact h s h1
    · subst h2
      show slotFatal { sel.slots.getD j dfltSlot with rows := res.lines } = false
      have heq : slotFatal { sel.slots.getD j dfltSlot with rows := res.lines } =
          slotFatal (sel.slots.getD j dfltSlot) := rfl
      rw [heq]
      by_cases hlt : j < sel.slots.length
      · rw [getD_of_lt _ _ _ hlt]
        exact h _ (sel.slots.get_mem _ _)
      · rw [getD_of_le _ _ _ (Nat.le_of_not_lt hlt)]
        rfl

/-- Marking a slot with the out-of-range sentinel preserves the no-fatal
invariant. -/
theorem noFatal_setErrorAt (sel : RoundRobinLineSel) (i : Nat)
    (h : noFatal sel) : noFatal (sel.setErrorAt i rowsRangeOutOfConc) := by
  intro s hs
  unfold RoundRobinLineSel.setErrorAt at hs
  rcases List.mem_or_eq_of_mem_set hs with h1 | h2
  · exact h s h1
  · subst h2
    simp [slotFatal]

/-- The collection loop preserves the no-fatal invariant on every
completed run: the only errors it ever stores are the sentinel. -/
theorem collectLoop_noFatal : ∀ (replies : List RawReply) (sel : RoundRobinLineSel)
    (corpora : List String) (i : Nat) (sel2 : RoundRobinLineSel),
    noFatal sel → collectLoop sel corpora i replies = .ok sel2 → noFatal sel2 := by
  intro replies
  induction replies with
  | nil =>
    intro sel corpora i sel2 hnf h
    simp only [collectLoop] at h
    injection h with h1
    subst h1
    exact hnf
  | cons reply rest ih =>
    intro sel corpora i sel2 hnf h
    cases reply with
    | fail m => simp [collectLoop] at h
    | ok res =>
      simp only [collectLoop] at h
      split at h
      · rename_i e herr
        split at h
        · rename_i heq
          subst heq
          exact ih _ _ _ _ (noFatal_setRscLines _ _ _ (noFatal_setErrorAt _ _ hnf)) h
        · simp at h
      · exact ih _ _ _ _ (noFatal_setRscLines _ _ _ hnf) h

/-- A completed collection run from a fresh selector leaves
`HasFatalError` false. -/
theorem collectLoop_fresh_hasFatal (k : Int) (corpora : List String)
    (replies : List RawReply) (sel2 : RoundRobinLineSel)
    (h : collectLoop (newRoundRobinLineSel k corpora) corpora 0 replies = .ok sel2) :
    sel2.hasFatalError = false := by
  have h0 : noFatal (newRoundRobinLineSel k corpora) := by
    intro s hs
    have hs2 : s ∈ corpora.map (fun _ => dfltSlot) := hs
    rcases List.mem_map.mp hs2 with ⟨c, -, rfl⟩
    rfl
  have hnf := collectLoop_noFatal replies _ corpora 0 sel2 h0 h
  rw [RoundRobinLineSel.hasFatalError, List.any_eq_false]
  intro s hs
  rw [hnf s hs]
  simp

/-- C9: once the reply-collection loop completes, no corpus slot holds a
fatal error — every fatal reply already aborted inside the loop — so the
`HasFatalError` branch of the post-aggregation classification is
unreachable: the classification is either the all-out-of-range response
or a pass-through to the merge. -/
theorem collectLoop_no_fatal_slot (k : Int) (corpora : List String)
    (replies : List RawReply) (sel2 : RoundRobinLineSel)
    (h : collectLoop (newRoundRobinLineSel k corpora) corpora 0 replies = .ok sel2) :
    sel2.hasFatalError = false ∧
    classifyAggregate sel2 =
      (if sel2.allHasOutOfRangeError then
        some (ConformantUnprocessableEntity,
          ⟨.DCFirstRecordPosOutOfRange, sel2.getFirstError.getD "",
            DiagCode.DCFirstRecordPosOutOfRange.asMessage⟩)
      else none) := by
  have hfe := collectLoop_fresh_hasFatal k corpora replies sel2 h
  refine ⟨hfe, ?_⟩
  rw [classifyAggregate]
  by_cases ha : sel2.allHasOutOfRangeError
  · simp [ha]
  · simp [ha, hfe]

/-- Witness for C9 at a one-corpus run with a clean reply. -/
theorem collectLoop_no_fatal_slot_witness :
    (⟨10, ["c1"], [⟨[], 0, none⟩], 0⟩ : RoundRobinLineSel).hasFatalError = false ∧
    classifyAggregate ⟨10, ["c1"], [⟨[], 0, none⟩], 0⟩ =
      (if (⟨10, ["c1"], [⟨[], 0, none⟩], 0⟩ : RoundRobinLineSel).allHasOutOfRangeError then
        some (ConformantUnprocessableEntity,
          ⟨.DCFirstRecordPosOutOfRange,
            (⟨10, ["c1"], [⟨[], 0, none⟩], 0⟩ :
              RoundRobinLineSel).getFirstError.getD "",
            DiagCode.DCFirstRecordPosOutOfRange.asMessage⟩)
      else none) :=
  collectLoop_no_fatal_slot 10 ["c1"] [.ok ⟨[], none⟩]
    ⟨10, ["c1"], [⟨[], 0, none⟩], 0⟩ rfl

/-- C2: after all replies are collected, an all-out-of-range selector makes
the request respond 422 with `DCFirstRecordPosOutOfRange` and no records,
while a selector with at least one but not all slots out-of-range is not
aborted for that reason: the continuation is exactly the merge phase. -/
theorem afterCollect_out_of_range (env : Env) (k : Int) (corpora : List String)
    (replies : List RawReply) (sel2 : RoundRobinLineSel)
    (h : collectLoop (newRoundRobinLineSel k corpora) corpora 0 replies = .ok sel2) :
    (sel2.allHasOutOfRangeError = true →
      afterCollect env sel2 k =
        { status := ConformantUnprocessableEntity,
          errors := [⟨.DCFirstRecordPosOutOfRange, sel2.getFirstError.getD "",
            DiagCode.DCFirstRecordPosOutOfRange.asMessage⟩],
          results := [] }) ∧
    ((∃ s ∈ sel2.slots, slotOutOfRange s = true) →
      sel2.allHasOutOfRangeError = false →
      afterCollect env sel2 k = mergePhase env sel2 k) := by
  have hfe := collectLoop_fresh_hasFatal k corpora replies sel2 h
  constructor
  · intro ha
    rw [afterCollect, classifyAggregate]
    simp [ha]
  · intro _ ha
    rw [afterCollect, classifyAggregate]
    simp [ha, hfe]

/-- Witness for C2 at a one-corpus run whose single reply is the
out-of-range sentinel. -/
theorem afterCollect_out_of_range_witness :
    afterCollect wEnv ⟨10, ["c1"], [⟨[], 0, some rowsRangeOutOfConc⟩], 0⟩ 10 =
      { status := ConformantUnprocessableEntity,
        errors := [⟨.DCFirstRecordPosOutOfRange,
          (⟨10, ["c1"], [⟨[], 0, some rowsRangeOutOfConc⟩], 0⟩ :
            RoundRobinLineSel).getFirstError.getD "",
          DiagCode.DCFirstRecordPosOutOfRange.asMessage⟩],
        results := [] } :=
  (afterCollect_out_of_range wEnv 10 ["c1"] [.ok ⟨[], some rowsRangeOutOfConc⟩]
    ⟨10, ["c1"], [⟨[], 0, some rowsRangeOutOfConc⟩], 0⟩ rfl).1 rfl

/-- A successful round-robin scan returns an index within the slot
list. -/
theorem findAvail_lt (slots : List RscSlot) :
    ∀ (k g j : Nat), findAvail slots g k = some j → j < slots.length := by
  intro k
  induction k with
  | zero => intro g j h; simp [findAvail] at h
  | succ n ih =>
    intro g j h
    simp only [findAvail] at h
    split at h
    · rename_i hc
      injection h with h1
      subst h1
      rcases Nat.eq_zero_or_pos slots.length with h0 | hpos
      · exfalso
        rw [getD_of_le _ _ _ (by omega)] at hc
        simp [dfltSlot] at hc
      · exact Nat.mod_lt _ hpos
    · exact ih _ _ h

/-- `rrNext` preserves the corpora list and the slot count, and the corpus
it reports belongs to the selector's corpora. -/
theorem rrNext_spec (sel sel2 : RoundRobinLineSel) (nm : String) (line : ConcLine)
    (hlen : sel.slots.length = sel.corpora.length)
    (h : rrNext sel = some (sel2, nm, line)) :
    sel2.corpora = sel.corpora ∧ sel2.slots.length = sel.slots.length ∧
      nm ∈ sel.corpora := by
  simp only [rrNext] at h
  split at h
  · simp at h
  · rename_i j hj
    have hjlt := findAvail_lt sel.slots _ _ _ hj
    simp only [Option.some.injEq, Prod.mk.injEq] at h
    obtain ⟨h1, h2, -⟩ := h
    subst h1
    refine ⟨rfl, by simp, ?_⟩
    rw [← h2, getD_of_lt _ _ _ (hlen ▸ hjlt)]
    exact sel.corpora.get_mem _ _

/-- The merge loop appends, beyond the accumulated prefix, at most
fuel-many rows; each appended row's position is its 1-based overall index,
its pid is one of the selector's corpora, and its ref is the URI of the
resource its pid resolves to. -/
theorem mergeLoopAux_spec (env : Env) :
    ∀ (r : Nat) (sel : RoundRobinLineSel) (acc rows : List FCSSearchRow)
      (ab : Option (Int × FCSError)),
    mergeLoopAux env sel acc r = (rows, ab) →
    sel.slots.length = sel.corpora.length →
    ∃ tail, rows = acc ++ tail ∧ tail.length ≤ r ∧
      ∀ (j : Nat) (hj : j < tail.length),
        (tail.get ⟨j, hj⟩).position = acc.length + j + 1 ∧
        (tail.get ⟨j, hj⟩).pid ∈ sel.corpora ∧
        ∃ cr, getResource env.resources ((tail.get ⟨j, hj⟩).pid) = some cr ∧
          (tail.get ⟨j, hj⟩).ref = cr.uri := by
  intro r
  induction r with
  | zero =>
    intro sel acc rows ab h hlen
    simp only [mergeLoopAux] at h
    injection h with h1 h2
    subst h1
    exact ⟨[], by simp, by simp, fun j hj => absurd hj (by simp)⟩
  | succ n ih =>
    intro sel acc rows ab h hlen
    simp only [mergeLoopAux] at h
    split at h
    · injection h with h1 h2
      subst h1
      exact ⟨[], by simp, by simp, fun j hj => absurd hj (by simp)⟩
    · rename_i sel2 nm line hnx
      split at h
      · injection h with h1 h2
        subst h1
        exact ⟨[], by simp, by simp, fun j hj => absurd hj (by simp)⟩
      · rename_i cr hcr
        obtain ⟨hco, hsl, hnm⟩ := rrNext_spec sel sel2 nm line hlen hnx
        have hlen2 : sel2.slots.length = sel2.corpora.length := by
          rw [hsl, hco]
          exact hlen
        obtain ⟨tail2, hrows, hlen3, hprops⟩ := ih sel2
          (acc ++ [⟨acc.length + 1, nm, cr.uri,
            line.text.map (fun t => ⟨t.word, t.strong⟩)⟩]) rows ab h hlen2
        refine ⟨⟨acc.length + 1, nm, cr.uri,
          line.text.map (fun t => ⟨t.word, t.strong⟩)⟩ :: tail2, ?_, ?_, ?_⟩
        · rw [hrows]
          simp
        · simp only [List.length_cons]
          omega
        · intro j hj
          cases j with
          | zero =>
            refine ⟨rfl, by simpa using hnm, cr, ?_, rfl⟩
            simpa using hcr
          | succ j2 =>
            have hj2 : j2 < tail2.length := by simpa using hj
            have hp := hprops j2 hj2
            have hget : ((⟨acc.length + 1, nm, cr.uri,
                line.text.map (fun t => ⟨t.word, t.strong⟩)⟩ : FCSSearchRow) ::
                tail2).get ⟨j2 + 1, hj⟩ = tail2.get ⟨j2, hj2⟩ := rfl
            rw [hget]
            refine ⟨?_, by rw [← hco]; exact hp.2.1, hp.2.2⟩
            rw [hp.1]
            simp only [List.length_append, List.length_cons, List.length_nil]
            omega

/-- C4: the merge loop emits at most K rows; each emitted row's position
is its 1-based index in emission order, its pid is drawn from the
selector's corpora — the input corpora list — and its ref is the URI of
the resource its pid resolves to in the registry. -/
theorem mergeLoop_emission (env : Env) (sel : RoundRobinLineSel) (k : Int)
    (rows : List FCSSearchRow) (ab : Option (Int × FCSError))
    (hlen : sel.slots.length = sel.corpora.length)
    (h : mergeLoop env sel k = (rows, ab)) :
    rows.length ≤ k.toNat ∧
    ∀ (i : Nat) (hi : i < rows.length),
      (rows.get ⟨i, hi⟩).position = i + 1 ∧
      (rows.get ⟨i, hi⟩).pid ∈ sel.corpora ∧
      ∃ cr, getResource env.resources ((rows.get ⟨i, hi⟩).pid) = some cr ∧
        (rows.get ⟨i, hi⟩).ref = cr.uri := by
  rw [mergeLoop] at h
  obtain ⟨tail, htail, hlen2, hprops⟩ := mergeLoopAux_spec env k.toNat sel [] rows ab h hlen
  simp only [List.nil_append] at htail
  subst htail
  refine ⟨hlen2, fun i hi => ?_⟩
  have hp := hprops i hi
  simpa using hp

/-- Witness for C4: a one-corpus selector with a single buffered line and
page size 3 emits one row at position 1 for corpus c1 with its URI. -/
theorem mergeLoop_emission_witness :
    ([(⟨1, "c1", "uri1", [⟨"w", true⟩]⟩ : FCSSearchRow)]).length ≤ (3 : Int).toNat ∧
    ∀ (i : Nat) (hi : i < [(⟨1, "c1", "uri1", [⟨"w", true⟩]⟩ : FCSSearchRow)].length),
      (([(⟨1, "c1", "uri1", [⟨"w", true⟩]⟩ : FCSSearchRow)]).get ⟨i, hi⟩).position = i + 1 ∧
      (([(⟨1, "c1", "uri1", [⟨"w", true⟩]⟩ : FCSSearchRow)]).get ⟨i, hi⟩).pid ∈
        (⟨3, ["c1"], [⟨[⟨[⟨"w", true⟩]⟩], 0, none⟩], 0⟩ : RoundRobinLineSel).corpora ∧
      ∃ cr, getResource wEnv.resources
          ((([(⟨1, "c1", "uri1", [⟨"w", true⟩]⟩ : FCSSearchRow)]).get ⟨i, hi⟩).pid) =
          some cr ∧
        (([(⟨1, "c1", "uri1", [⟨"w", true⟩]⟩ : FCSSearchRow)]).get ⟨i, hi⟩).ref = cr.uri :=
  mergeLoop_emission wEnv ⟨3, ["c1"], [⟨[⟨[⟨"w", true⟩]⟩], 0, none⟩], 0⟩ 3
    [⟨1, "c1", "uri1", [⟨"w", true⟩]⟩] none rfl rfl

/-- C7: `startRecord` defaults to 1 when absent and must parse as an
integer at least 1, otherwise the request fails with
`DCUnsupportedParameterValue` and HTTP 422; `maximumRecords` defaults to
the configured value when absent and must parse as an integer at least 1,
otherwise the request fails with HTTP 422. -/
theorem searchRetrieve_record_params (env : Env) (req : Request)
    (hk : firstUnknownKey req = none)
    (hq : (queryParam req "query").length ≠ 0) :
    (lookupParam req "startRecord" = none → getStartRecord req = .ok 1) ∧
    (∀ s n, lookupParam req "startRecord" = some s → atoi s = some n → 1 ≤ n →
      getStartRecord req = .ok n) ∧
    (∀ s, lookupParam req "startRecord" = some s →
      (atoi s = none ∨ ∃ n, atoi s = some n ∧ n < 1) →
      getStartRecord req = .error ⟨.DCUnsupportedParameterValue, "startRecord",
        DiagCode.DCUnsupportedParameterValue.asMessage⟩ ∧
      (searchRetrieve env req).status = ConformantUnprocessableEntity ∧
      (searchRetrieve env req).errors = [⟨.DCUnsupportedParameterValue, "startRecord",
        DiagCode.DCUnsupportedParameterValue.asMessage⟩]) ∧
    (lookupParam req "maximumRecords" = none → 1 ≤ env.maximumRecordsConf →
      getMaximumRecords env req = .ok env.maximumRecordsConf) ∧
    (∀ s n, lookupParam req "maximumRecords" = some s → 0 < s.length →
      atoi s = some n → 1 ≤ n → getMaximumRecords env req = .ok n) ∧
    (∀ s sr, lookupParam req "maximumRecords" = some s → 0 < s.length →
      (atoi s = none ∨ ∃ n, atoi s = some n ∧ n < 1) →
      getStartRecord req = .ok sr →
      getMaximumRecords env req = .error ⟨.DCUnsupportedParameterValue,
        "maximumRecords", DiagCode.DCUnsupportedParameterValue.asMessage⟩ ∧
      (searchRetrieve env req).status = ConformantUnprocessableEntity) := by
  refine ⟨?_, ?_, ?_, ?_, ?_, ?_⟩
  · intro hsr
    have hd : defaultQuery req "startRecord" "1" = "1" := by
      rw [defaultQuery, hsr]
      rfl
    have ha : atoi "1" = some 1 := rfl
    rw [getStartRecord, hd, ha]
    norm_num
  · intro s n hsr ha hn
    have hd : defaultQuery req "startRecord" "1" = s := by
      rw [defaultQuery, hsr]
      rfl
    have hn2 : ¬ n < 1 := by omega
    rw [getStartRecord, hd, ha]
    simp [hn2]
  · intro s hsr hbad
    have hd : defaultQuery req "startRecord" "1" = s := by
      rw [defaultQuery, hsr]
      rfl
    have hE : getStartRecord req = .error ⟨.DCUnsupportedParameterValue, "startRecord",
        DiagCode.DCUnsupportedParameterValue.asMessage⟩ := by
      rcases hbad with ha | ⟨n, ha, hlt⟩
      · rw [getStartRecord, hd, ha]
      · rw [getStartRecord, hd, ha]
        simp [hlt]
    refine ⟨hE, ?_, ?_⟩
    · simp [searchRetrieve, hk, hq, hE]
    · simp [searchRetrieve, hk, hq, hE]
  · intro hmr hconf
    have hv : queryParam req "maximumRecords" = "" := by
      rw [queryParam, hmr]
      rfl
    have hc2 : ¬ env.maximumRecordsConf < 1 := by omega
    rw [getMaximumRecords]
    simp [hv, hc2]
  · intro s n hmr hlen0 ha hn
    have hv : queryParam req "maximumRecords" = s := by
      rw [queryParam, hmr]
      rfl
    have hn2 : ¬ n < 1 := by omega
    rw [getMaximumRecords]
    simp [hv, hlen0, ha, hn2]
  · intro s sr hmr hlen0 hbad hsrok
    have hv : queryParam req "maximumRecords" = s := by
      rw [queryParam, hmr]
      rfl
    have hE : getMaximumRecords env req = .error ⟨.DCUnsupportedParameterValue,
        "maximumRecords", DiagCode.DCUnsupportedParameterValue.asMessage⟩ := by
      rcases hbad with ha | ⟨n, ha, hlt⟩
      · rw [getMaximumRecords]
        simp [hv, hlen0, ha]
      · rw [getMaximumRecords]
        simp [hv, hlen0, ha, hlt]
    refine ⟨hE, ?_⟩
    simp [searchRetrieve, hk, hq, hsrok, hE]

/-- Witness for C7: a request whose startRecord parses to 0 fails with the
`DCUnsupportedParameterValue` diagnostic and status 422. -/
theorem searchRetrieve_record_params_witness :
    getStartRecord ⟨[("query", "cat"), ("startRecord", "0")]⟩ =
      .error ⟨.DCUnsupportedParameterValue, "startRecord",
        DiagCode.DCUnsupportedParameterValue.asMessage⟩ ∧
    (searchRetrieve wEnv ⟨[("query", "cat"), ("startRecord", "0")]⟩).status =
      ConformantUnprocessableEntity ∧
    (searchRetrieve wEnv ⟨[("query", "cat"), ("startRecord", "0")]⟩).errors =
      [⟨.DCUnsupportedParameterValue, "startRecord",
        DiagCode.DCUnsupportedParameterValue.asMessage⟩] :=
  (searchRetrieve_record_params wEnv ⟨[("query", "cat"), ("startRecord", "0")]⟩
    (by decide) (by decide)).2.2.1 "0" (by decide)
    (Or.inr ⟨0, rfl, by norm_num⟩)

end MqueryFcs
